import Mathlib

/-!
Shallow embedding of the sws crawl/scrape engine
(crates/sws-crawler: crawler.rs, config.rs, scrapable.rs) and proofs
about its counters, termination watcher, error policies and startup
validation.
-/

namespace Sws

/-- Embeds `OnError` from crates/sws-crawler/src/config.rs (lines 75-78). -/
inductive OnError
  | Fail
  | SkipAndLog
deriving DecidableEq, Repr

/-- Embeds `Throttle` from crates/sws-crawler/src/config.rs (lines 81-88).
`NonZeroUsize` is embedded as `Nat` (positivity is carried separately where
needed); the `f32` delay is embedded as `Rat`. -/
inductive Throttle
  | Concurrent (n : Nat)
  | PerSecond (n : Nat)
  | Delay (d : Rat)
deriving DecidableEq, Repr

/-- Embeds `Default for Throttle` from config.rs (lines 90-94):
`Concurrent(100)`. -/
def Throttle.default : Throttle := .Concurrent 100

/-- Embeds `CrawlerConfig` from crates/sws-crawler/src/config.rs, restricted to
the fields read by crawler.rs. The `robot` field is matched on by
crawler.rs (line 228) as an `Option` of a robots.txt URL; its declaration is
absent from the packaged config.rs. Modelled from the spec: `robot` is the
optional override robots.txt URL of the crawler config. -/
structure CrawlerConfig where
  user_agent : String
  page_buffer : Nat
  throttle : Option Throttle
  num_workers : Nat
  on_dl_error : OnError
  on_xml_error : OnError
  on_scrap_error : OnError
  robot : Option String
deriving Repr

/-- Embeds `Seed` from crates/sws-crawler/src/scrapable.rs (lines 28-32). -/
inductive Seed
  | Sitemaps (urls : List String)
  | Pages (urls : List String)
  | RobotsTxt (url : String)
deriving DecidableEq, Repr

/-- Minimal embedding of `texting_robots::Robot` as read by crawler.rs:
the optional crawl delay (`robot.delay`, an `Option` of `f32`, embedded as
`Rat`) and the `sitemaps` list. -/
structure Robot where
  delay : Option Rat
  sitemaps : List String
deriving DecidableEq, Repr

/-- Embeds `Sitemap` from crates/sws-crawler/src/scrapable.rs (lines 55-58). -/
inductive Sitemap
  | Index
  | Urlset
deriving DecidableEq, Repr

/-- Embeds `PageLocation` from crates/sws-crawler/src/scrapable.rs
(lines 118-121); a filesystem path is embedded as a string. -/
inductive PageLocation
  | url (u : String)
  | path (p : String)
deriving DecidableEq, Repr

/-- Embeds `Page` from crates/sws-crawler/src/crawler.rs (lines 137-140). -/
structure Page where
  page : String
  location : PageLocation
deriving DecidableEq, Repr

/-! ## CountedTx (scrapable.rs lines 123-144) -/

/-- State of the unbounded URL channel (`tokio::sync::mpsc::unbounded_channel`)
as seen by a sender: whether the receiver is still alive, and the messages
enqueued so far. -/
structure UrlChannel where
  isOpen : Bool
  msgs : List String
deriving DecidableEq, Repr

/-- State of a `CountedTx` (scrapable.rs lines 123-127): the channel plus the
shared `AtomicUsize` counter (`pages_in` alias `in_count`). -/
structure CountedTxState where
  chan : UrlChannel
  counter : Nat
deriving DecidableEq, Repr

/-- Embeds `CountedTx::send` from scrapable.rs (lines 134-143): the message is
enqueued and the counter incremented when the underlying send succeeds (the
channel is open); when the send fails the error is only logged and neither
the channel contents nor the counter change. -/
def CountedTx.send (st : CountedTxState) (s : String) : CountedTxState :=
  if st.chan.isOpen then
    { chan := { st.chan with msgs := st.chan.msgs ++ [s] }, counter := st.counter + 1 }
  else
    st

/-! ## Counter pipeline (crawler.rs crawl_site)

A small-step abstraction of the counter-relevant events of `crawl_site`
(crawler.rs lines 216-441).  Each constructor of `PipeStep` names the source
site it embeds. -/

/-- Abstract counter state of a `crawl_site` run: the URL channel backlog, the
downloads in flight, the bounded page channel backlog, the pages taken by
workers whose handling is not yet counted, the two shared counters
`pages_in` / `pages_out` (crawler.rs lines 257-258), and the `crawler_done`
flag (line 327). -/
structure PipeState where
  urlQueue : Nat
  dlInFlight : Nat
  pageQueue : Nat
  workerBusy : Nat
  in_count : Nat
  out_count : Nat
  walkerDone : Bool
deriving DecidableEq, Repr

/-- Initial state of a run: empty channels, zero counters, walker running. -/
def PipeState.init : PipeState :=
  { urlQueue := 0, dlInFlight := 0, pageQueue := 0, workerBusy := 0
    in_count := 0, out_count := 0, walkerDone := false }

/-- One observable counter event of `crawl_site`.

* `sendUrlOk`: a successful `CountedTx::send` (scrapable.rs lines 136-138),
  from the walker (crawler.rs line 125, 368) or from user code holding
  `tx_url` (line 286): the URL enters the channel and `in_count` rises.
* `sendUrlClosed`: a failed `CountedTx::send` (scrapable.rs lines 139-141):
  nothing changes.
* `dlStart`: the downloader pulls a URL from the channel (crawler.rs
  line 381) and starts `download`.
* `dlFail`: a download fails and `pages_in.fetch_sub(1)` runs (crawler.rs
  lines 384-387); no page is produced.
* `dlOk`: a download succeeds and the page is pushed to `tx_page`
  (crawler.rs lines 396, 406).
* `workerTake`: a worker receives a page from `rx_page` (crawler.rs
  line 278).
* `workerCount`: the worker reaches `pages_out.fetch_add(1)` (crawler.rs
  line 301), after an ok scrap or a skipped-and-logged scrap error.
* `workerDrop`: the worker consumed the page without counting it: the
  `failed` fast-path break (lines 279-281) or the `OnError::Fail` return
  (lines 295-298).
* `walkerDone`: the walker stores `true` into `crawler_done`
  (crawler.rs line 343 or 370). -/
inductive PipeStep : PipeState → PipeState → Prop
  | sendUrlOk (s : PipeState) :
      PipeStep s { s with urlQueue := s.urlQueue + 1, in_count := s.in_count + 1 }
  | sendUrlClosed (s : PipeState) :
      PipeStep s s
  | dlStart (s : PipeState) (h : 0 < s.urlQueue) :
      PipeStep s { s with urlQueue := s.urlQueue - 1, dlInFlight := s.dlInFlight + 1 }
  | dlFail (s : PipeState) (h : 0 < s.dlInFlight) :
      PipeStep s { s with dlInFlight := s.dlInFlight - 1, in_count := s.in_count - 1 }
  | dlOk (s : PipeState) (h : 0 < s.dlInFlight) :
      PipeStep s { s with dlInFlight := s.dlInFlight - 1, pageQueue := s.pageQueue + 1 }
  | workerTake (s : PipeState) (h : 0 < s.pageQueue) :
      PipeStep s { s with pageQueue := s.pageQueue - 1, workerBusy := s.workerBusy + 1 }
  | workerCount (s : PipeState) (h : 0 < s.workerBusy) :
      PipeStep s { s with workerBusy := s.workerBusy - 1, out_count := s.out_count + 1 }
  | workerDrop (s : PipeState) (h : 0 < s.workerBusy) :
      PipeStep s { s with workerBusy := s.workerBusy - 1 }
  | walkerDone (s : PipeState) :
      PipeStep s { s with walkerDone := true }

/-- States reachable from the initial state of a `crawl_site` run by the
counter events above: the observation points of the run. -/
inductive Reachable : PipeState → Prop
  | init : Reachable PipeState.init
  | step {s t : PipeState} : Reachable s → PipeStep s t → Reachable t

/-- The inductive strengthening behind the counter invariant: everything that
is still inside the pipeline plus everything already counted out is covered
by `in_count`. -/
theorem reachable_flow_le (s : PipeState) (h : Reachable s) :
    s.urlQueue + s.dlInFlight + s.pageQueue + s.workerBusy + s.out_count ≤ s.in_count := by
  induction h with
  | init => simp [PipeState.init]
  | step _ hstep ih =>
    cases hstep with
    | sendUrlOk => simp only at ih ⊢; omega
    | sendUrlClosed => exact ih
    | dlStart h => simp only at ih ⊢; omega
    | dlFail h => simp only at ih ⊢; omega
    | dlOk h => simp only at ih ⊢; omega
    | workerTake h => simp only at ih ⊢; omega
    | workerCount h => simp only at ih ⊢; omega
    | workerDrop h => simp only at ih ⊢; omega
    | walkerDone => simpa using ih

/-! ## Quiescence watcher (crawler.rs lines 417-433) -/

/-- What one iteration of the `done` loop observes after its 1-second
`timeout(Duration::from_secs(1), tokio::signal::ctrl_c())`: either the
interrupt future resolved (the `Ok(_)` arm, line 420), or the timeout
elapsed (the `Err(_)` arm, line 421) and the two counters and the
`crawler_done` flag are loaded (lines 422-423). -/
inductive DoneObs
  | interrupt
  | tick (out_c in_c : Nat) (walkerDone : Bool)
deriving DecidableEq, Repr

/-- Outcome of the `done` task: either it returned
`Err(anyhow!("Interrupted"))` (line 420), or it sent `numStops` stop
messages (the `for _ in 0..crawler_conf.num_workers` loop, lines 425-427)
and returned `Ok(())` (line 428). -/
inductive DoneOutcome
  | interrupted (msg : String)
  | stopped (numStops : Nat)
deriving DecidableEq, Repr

/-- Embeds the `done` task of `crawl_site` (crawler.rs lines 417-433) over a
finite trace of loop observations. `none` means the loop is still running
after consuming the whole trace. -/
def doneTask (numWorkers : Nat) : List DoneObs → Option DoneOutcome
  | [] => none
  | .interrupt :: _ => some (.interrupted "Interrupted")
  | .tick o i d :: rest =>
      if o == i && d then some (.stopped numWorkers) else doneTask numWorkers rest

/-! ## Downloader task (crawler.rs lines 380-413) -/

/-- Result of the downloader task over the completed downloads of a run:
the pages pushed into `tx_page`, the number of times
`pages_in.fetch_sub(1, SeqCst)` ran (crawler.rs line 385, once per failed
download), and the value the task returns. -/
structure DlOutcome where
  sent : List Page
  decrements : Nat
  result : Except String Unit
deriving Repr

/-- Embeds the downloader task of `crawl_site` (crawler.rs lines 380-413)
applied to the sequence of download results it awaits.  Every failed
download runs `pages_in.fetch_sub(1)` inside the `map_err` at lines
384-387, before the error-policy dispatch.  Under `OnError::Fail` the
`scan(&mut err, until_err)` combinator (lines 393-398) ends the stream at
the first error and the task returns that error; pages completed before it
were already sent.  Under `OnError::SkipAndLog` (lines 401-411) errors are
logged and dropped, every successful page is sent, and the task returns ok. -/
def downloaderTask (onDlError : OnError) : List (Except String Page) → DlOutcome
  | [] => { sent := [], decrements := 0, result := .ok () }
  | .ok p :: rest =>
      let o := downloaderTask onDlError rest
      { o with sent := p :: o.sent }
  | .error e :: rest =>
      match onDlError with
      | .SkipAndLog =>
          let o := downloaderTask onDlError rest
          { o with decrements := o.decrements + 1 }
      | .Fail => { sent := [], decrements := 1, result := .error e }

/-- The successfully downloaded pages of a sequence of download results. -/
def dlPages : List (Except String Page) → List Page
  | [] => []
  | .ok p :: rest => p :: dlPages rest
  | .error _ :: rest => dlPages rest

/-- The number of failed downloads in a sequence of download results. -/
def dlErrCount : List (Except String Page) → Nat
  | [] => 0
  | .ok _ :: rest => dlErrCount rest
  | .error _ :: rest => dlErrCount rest + 1

/-- The first download error of a sequence of download results, if any. -/
def dlFirstErr : List (Except String Page) → Option String
  | [] => none
  | .ok _ :: rest => dlFirstErr rest
  | .error e :: _ => some e

/-! ## Worker loop (crawler.rs lines 272-310) -/

/-- Counter and control effect of a worker handling one page it received
from `rx_page` (crawler.rs lines 282-304, after the `failed` fast path):
how much `pages_out` grows, whether the worker stores `true` into the
shared `failed` flag, and the error the worker thread returns, if any. -/
structure WorkerStep where
  outIncrement : Nat
  setsFailed : Bool
  threadErr : Option String
deriving DecidableEq, Repr

/-- Embeds the handling of one page by a worker (crawler.rs lines 289-301)
given the result of `scraper.scrap(page, ctx)`: on ok fall through to
`pages_out.fetch_add(1)`; on error under `SkipAndLog` log and still reach
the `fetch_add`; on error under `Fail` store `failed = true` and return the
error before the `fetch_add`. -/
def workerHandlePage (onScrapError : OnError) (scrapResult : Except String Unit) : WorkerStep :=
  match scrapResult with
  | .ok _ => { outIncrement := 1, setsFailed := false, threadErr := none }
  | .error e =>
      match onScrapError with
      | .SkipAndLog => { outIncrement := 1, setsFailed := false, threadErr := none }
      | .Fail => { outIncrement := 0, setsFailed := true, threadErr := some e }

/-- A message a worker can receive in its `crossbeam_channel::select!`
(crawler.rs lines 277-307): a page whose scrap would return the given
result, a closed page channel (the `else` branch at line 302), or a stop
message (line 306). -/
inductive WorkerMsg
  | page (scrapResult : Except String Unit)
  | closed
  | stop
deriving Repr

/-- Embeds the worker loop (crawler.rs lines 276-309) over a finite trace of
received messages, threading the shared `failed` flag as observed by this
worker.  Returns the total growth of `pages_out`, the final `failed` flag
and the value the worker thread returns. -/
def workerLoop (onScrapError : OnError) (failedFlag : Bool) :
    List WorkerMsg → Nat × Bool × Except String Unit
  | [] => (0, failedFlag, .ok ())
  | .closed :: _ => (0, failedFlag, .ok ())
  | .stop :: _ => (0, failedFlag, .ok ())
  | .page r :: rest =>
      if failedFlag then (0, failedFlag, .ok ())
      else
        let step := workerHandlePage onScrapError r
        match step.threadErr with
        | some e => (step.outIncrement, step.setsFailed, .error e)
        | none =>
            let (o, f, res) := workerLoop onScrapError (failedFlag || step.setsFailed) rest
            (step.outIncrement + o, f, res)

/-! ## gather_urls error handling (crawler.rs lines 36-134, scrapable.rs
lines 60-78) -/

/-- Embeds `TryFrom<dom::Root> for Sitemap` (scrapable.rs lines 60-78) on the
local name of the first element child of the XML root; `none` stands for a
first child that is not an element. -/
def sitemapTryFrom (rootKind : Option String) : Except String Sitemap :=
  match rootKind with
  | none => .error "First child of root is not an element"
  | some kind =>
      if kind = "sitemapindex" then .ok .Index
      else if kind = "urlset" then .ok .Urlset
      else .error ("Unknown root node kind: " ++ kind)

/-- The value the `//sm:loc` XPath evaluation can produce (crawler.rs
lines 71, 86): a nodeset of loc strings, or some other value kind, in which
case the `if let Value::Nodeset` match skips the body. -/
inductive XpathValue
  | nodeset (locs : List String)
  | other
deriving Repr

/-- What fetching and inspecting one sitemap document can yield, the input of
one `gather_urls` invocation after its `download` succeeded: an XML parse
failure (crawler.rs line 52), or a parsed document with the first root
child (`none` when not an element) and the outcome of the XPath evaluation
(crawler.rs line 71). -/
inductive XmlFetch
  | parseFail (e : String)
  | parsed (rootKind : Option String) (xpath : Except String XpathValue)
deriving Repr

/-- What one `gather_urls` invocation does when it returns ok: nothing (a
skipped-and-logged error or a non-nodeset XPath value), the accepted page
URLs sent through `tx_url` (the `Urlset` arm, crawler.rs lines 120-128), or
the accepted sub-sitemap URLs scheduled for recursion (the `Index` arm,
lines 88-118). -/
inductive GatherAction
  | skipped
  | urlsetSend (urls : List String)
  | indexRecurse (subs : List String)
deriving DecidableEq, Repr

/-- Embeds the body of one `gather_urls` invocation (crawler.rs lines 47-133)
after its initial `download` succeeded, on the fetched document `doc`, with
`accept` the `scraper.accept` predicate under the crawling context of the
given sitemap kind.

Source order: `parser::parse` with its `on_xml_error` dispatch (lines
52-61), then `Sitemap::try_from(document.root())?` (line 64, the `?`
propagates the error under BOTH error policies), then the XPath evaluation
with its `on_xml_error` dispatch (lines 71-84), then the nodeset match
(lines 86-130). -/
def gatherUrlsStep (onXmlError : OnError) (accept : Sitemap → String → Bool)
    (sitemapUrl : String) (doc : XmlFetch) : Except String GatherAction :=
  match doc with
  | .parseFail e =>
      match onXmlError with
      | .SkipAndLog => .ok .skipped
      | .Fail => .error ("Couldn\x27t parse " ++ sitemapUrl ++ " got: " ++ e)
  | .parsed rootKind xpath =>
      match sitemapTryFrom rootKind with
      | .error e => .error e
      | .ok smKind =>
          match xpath with
          | .error e =>
              match onXmlError with
              | .SkipAndLog => .ok .skipped
              | .Fail =>
                  .error ("Couldn\x27t evaluate //sm:loc for " ++ sitemapUrl ++ " got: " ++ e)
          | .ok .other => .ok .skipped
          | .ok (.nodeset locs) =>
              match smKind with
              | .Index => .ok (.indexRecurse (locs.filter (accept .Index)))
              | .Urlset => .ok (.urlsetSend (locs.filter (accept .Urlset)))

/-! ## Walker task (crawler.rs lines 330-374) -/

/-- Sequential `gather_urls` calls over a list of sitemap URLs with `?`
propagation, as in the seed loops of the walker task (crawler.rs lines
332-342 and 350-362); `gather` abstracts the full result of one recursive
`gather_urls` walk rooted at the given URL. -/
def walkerGatherAll (gather : String → Except String Unit) :
    List String → Except String Unit
  | [] => .ok ()
  | u :: rest =>
      match gather u with
      | .error e => .error e
      | .ok _ => walkerGatherAll gather rest

/-- Embeds the walker (crawler) task of `crawl_site` (crawler.rs lines
330-374) for each seed kind, returning the final value of the
`crawler_done` flag together with the task result.

* `Seed::Sitemaps` (lines 331-346): walk every seed sitemap with `?`; on
  success store `true` into `crawler_done` and drop `tx_url`.
* `Seed::RobotsTxt` (lines 347-365): walk every robot-listed sitemap that
  `accept` admits, with `?`; this branch contains NO store into
  `crawler_done`.
* `Seed::Pages` (lines 366-373): send every page URL, store `true` into
  `crawler_done`, drop `tx_url`. -/
def walkerTask (seed : Seed) (robot : Option Robot) (accept : String → Bool)
    (gather : String → Except String Unit) : Bool × Except String Unit :=
  match seed with
  | .Sitemaps urls =>
      match walkerGatherAll gather urls with
      | .error e => (false, .error e)
      | .ok _ => (true, .ok ())
  | .RobotsTxt _ =>
      match robot with
      | some r =>
          match walkerGatherAll gather (r.sitemaps.filter accept) with
          | .error e => (false, .error e)
          | .ok _ => (false, .ok ())
      | none => (false, .ok ())
  | .Pages _ => (true, .ok ())

/-! ## Startup validation and throttle resolution (crawler.rs lines 216-248)
and supervisor control flow (lines 250-441) -/

/-- The exact message of the startup `bail!` in `crawl_site` (crawler.rs
lines 229-231), also asserted by tests/validate.rs. -/
def robotsSeedErrMsg : String :=
  "Invalid seed config, cannot use Seed::RobotsTxt when `crawler_conf.robot` is defined"

/-- A prefix test on character lists, used to compare error messages with
the text a specification sentence quotes. -/
def charsStartWith : List Char → List Char → Bool
  | _, [] => true
  | [], _ :: _ => false
  | c :: cs, d :: ds => c == d && charsStartWith cs ds

/-- Whether `needle` occurs as a contiguous segment of `hay`. -/
def charsHaveSegment : List Char → List Char → Bool
  | [], needle => needle.isEmpty
  | c :: t, needle => charsStartWith (c :: t) needle || charsHaveSegment t needle

/-- Observable milestones of a `crawl_site` run, in program order. -/
inductive Event
  | robotFetch (url : String)
  | workerSpawn (id : Nat)
  | joinTasks
  | finalizerCall
deriving DecidableEq, Repr

/-- Embeds the throttle resolution of crawler.rs lines 235-242, the
`match (robot.delay, crawler_conf.throttle)`: a configured throttle wins;
otherwise a robot delay is used after `ensure!(delay > 0.0)`; otherwise
`Throttle::default()`. -/
def throttleFromRobot (conf : CrawlerConfig) (robot : Robot) : Except String Throttle :=
  match robot.delay, conf.throttle with
  | _, some t => .ok t
  | some d, none =>
      if d > 0 then .ok (.Delay d) else .error "Robot delay must be > 0.0"
  | none, none => .ok Throttle.default

/-- Embeds the robots fetch and throttle resolution of the fetching arm of
the startup match (crawler.rs lines 232-245): fetch and parse the robots
document (both `?`, abstracted by the `fetch` oracle), then resolve the
throttle through `throttleFromRobot`. -/
def fetchAndThrottle (conf : CrawlerConfig) (fetch : String → Except String Robot)
    (url : String) : Except String (Option Robot × Throttle) :=
  match fetch url with
  | .error e => .error e
  | .ok robot =>
      match throttleFromRobot conf robot with
      | .error e => .error e
      | .ok throttle => .ok (some robot, throttle)

/-- Embeds the startup match of `crawl_site` (crawler.rs lines 228-247) on
`(&seed, &crawler_conf.robot)`, also recording whether a robots fetch was
performed: `(Seed::RobotsTxt, Some)` bails with `robotsSeedErrMsg`;
`(Seed::RobotsTxt(url), None)` and `(_, Some(url))` fetch the robots
document and resolve the throttle; otherwise no robot and
`crawler_conf.throttle.unwrap_or_default()`. -/
def resolveRobotThrottle (conf : CrawlerConfig) (seed : Seed)
    (fetch : String → Except String Robot) :
    List Event × Except String (Option Robot × Throttle) :=
  match seed, conf.robot with
  | .RobotsTxt _, some _ => ([], .error robotsSeedErrMsg)
  | .RobotsTxt url, none => ([.robotFetch url], fetchAndThrottle conf fetch url)
  | _, some url => ([.robotFetch url], fetchAndThrottle conf fetch url)
  | _, none => ([], .ok (none, conf.throttle.getD Throttle.default))

/-- Effective throttle as the spec words it, for the refinement theorem of
the throttle claim: the configured throttle when set; otherwise the fetched
robots delay when one is supplied; otherwise `Concurrent(100)`. -/
def specEffectiveThrottle (configured : Option Throttle) (robot : Option Robot) : Throttle :=
  match configured with
  | some t => t
  | none =>
      match robot with
      | some r =>
          match r.delay with
          | some d => .Delay d
          | none => Throttle.default
      | none => Throttle.default

/-- Outcomes of the effectful steps of one `crawl_site` run, abstracting
scraper construction, the network, thread spawning and the joined tasks. -/
structure RunEnv where
  newWalkerScraper : Except String Unit
  fetch : String → Except String Robot
  spawnWorker : Nat → Except String Unit
  newFinalScraper : Except String Unit
  joinResult : Except String Unit

/-- Embeds the worker spawn loop of `crawl_site` (crawler.rs lines 262-312):
spawn threads `id, id+1, ...` while `count` remain, with `?` on a spawn
failure. -/
def spawnLoop (spawn : Nat → Except String Unit) (id : Nat) :
    Nat → List Event × Except String Unit
  | 0 => ([], .ok ())
  | count + 1 =>
      match spawn id with
      | .error e => ([], .error e)
      | .ok _ =>
          let (evs, r) := spawnLoop spawn (id + 1) count
          (.workerSpawn id :: evs, r)

/-- Embeds the supervisor control flow of `crawl_site` (crawler.rs lines
216-441) as a sequence of milestones: construct the walker scraper
(line 225, `?`); run the startup match (lines 228-247, `?`); spawn the
workers (lines 262-312, `?`); construct the dedicated finalizer scraper
(line 435, `?`); await `try_join!` (line 436); call `scraper.finalizer()`
on the dedicated instance (line 437) unconditionally; then `res?`
(line 438).  Returns the emitted events in order and the run result. -/
def crawlSite (conf : CrawlerConfig) (seed : Seed) (env : RunEnv) :
    List Event × Except String Unit :=
  match env.newWalkerScraper with
  | .error e => ([], .error e)
  | .ok _ =>
      let r1 := resolveRobotThrottle conf seed env.fetch
      match r1.2 with
      | .error e => (r1.1, .error e)
      | .ok _ =>
          let r2 := spawnLoop env.spawnWorker 0 conf.num_workers
          match r2.2 with
          | .error e => (r1.1 ++ r2.1, .error e)
          | .ok _ =>
              match env.newFinalScraper with
              | .error e => (r1.1 ++ r2.1, .error e)
              | .ok _ =>
                  (r1.1 ++ r2.1 ++ [.joinTasks, .finalizerCall],
                   match env.joinResult with
                   | .error e => .error e
                   | .ok _ => .ok ())

/-! ## Concrete example inputs used by closed theorems -/

/-- A crawler config with the robots URL override set, as in
tests/validate.rs. -/
def exConfRobots : CrawlerConfig :=
  { user_agent := "SWSbot", page_buffer := 10000, throttle := none, num_workers := 2
    on_dl_error := .SkipAndLog, on_xml_error := .SkipAndLog, on_scrap_error := .SkipAndLog
    robot := some "https://override.example/robots.txt" }

/-- A crawler config without the robots URL override and without a
configured throttle. -/
def exConfPlain : CrawlerConfig :=
  { user_agent := "SWSbot", page_buffer := 10000, throttle := none, num_workers := 2
    on_dl_error := .SkipAndLog, on_xml_error := .SkipAndLog, on_scrap_error := .SkipAndLog
    robot := none }

/-- A run environment in which every effectful step succeeds. -/
def exEnvOk : RunEnv :=
  { newWalkerScraper := .ok (), fetch := fun _ => .ok { delay := none, sitemaps := [] }
    spawnWorker := fun _ => .ok (), newFinalScraper := .ok (), joinResult := .ok () }

/-! ## Theorems -/

/-- C10: for every call to `CountedTx::send`, the counter is incremented
exactly when the underlying unbounded-channel send succeeds (the channel is
open); when the channel is closed the message is discarded, the channel
contents, its open flag and the counter are all left unchanged. -/
theorem countedTx_send_counts_iff_sent (st : CountedTxState) (s : String) :
    (CountedTx.send st s).counter = st.counter + (if st.chan.isOpen then 1 else 0) ∧
    (CountedTx.send st s).chan.msgs =
      (if st.chan.isOpen then st.chan.msgs ++ [s] else st.chan.msgs) ∧
    (CountedTx.send st s).chan.isOpen = st.chan.isOpen ∧
    CountedTx.send { chan := { isOpen := false, msgs := st.chan.msgs }, counter := st.counter } s
      = { chan := { isOpen := false, msgs := st.chan.msgs }, counter := st.counter } := by
  unfold CountedTx.send
  rcases h : st.chan.isOpen <;> simp [h]

/-- C2: at every observation point of a `crawl_site` run (every state
reachable by the counter events of the pipeline), `in_count ≥ out_count`:
`in_count` rises on each successful URL send, falls once per failed
download, and `out_count` rises at most once per page a worker consumed, so
`out_count` never exceeds `in_count`. -/
theorem in_count_ge_out_count (s : PipeState) (h : Reachable s) :
    s.out_count ≤ s.in_count := by
  have hflow := reachable_flow_le s h
  omega

theorem in_count_ge_out_count_holds :
    Reachable { urlQueue := 1, dlInFlight := 0, pageQueue := 0, workerBusy := 0,
                in_count := 1, out_count := 0, walkerDone := false } ∧
    (0 : Nat) ≤ 1 := by
  have hr : Reachable { urlQueue := 1, dlInFlight := 0, pageQueue := 0, workerBusy := 0,
                        in_count := 1, out_count := 0, walkerDone := false } :=
    Reachable.step Reachable.init (PipeStep.sendUrlOk PipeState.init)
  exact ⟨hr, in_count_ge_out_count _ hr⟩

/-- C1: evaluated on concrete runs, the walker task sets `crawler_done` on
successful completion for the `Sitemaps` and `Pages` seeds, but the
`RobotsTxt` branch of crawler.rs (lines 347-365) completes successfully
WITHOUT storing `true` into `crawler_done`, so a clean `RobotsTxt` run can
never reach the termination condition
`in_count == out_count AND walker_done == true`. -/
theorem walker_done_flag_by_seed :
    walkerTask (.RobotsTxt "https://site.example/robots.txt")
        (some { delay := none, sitemaps := ["https://site.example/sitemap.xml"] })
        (fun _ => true) (fun _ => .ok ())
      = (false, .ok ()) ∧
    walkerTask (.Sitemaps ["https://site.example/sitemap.xml"]) none
        (fun _ => true) (fun _ => .ok ())
      = (true, .ok ()) ∧
    walkerTask (.Pages ["https://site.example/p1"]) none
        (fun _ => true) (fun _ => .ok ())
      = (true, .ok ()) :=
  ⟨rfl, rfl, rfl⟩

/-- C6: for every page a worker consumes, an ok scrap increments `out_count`
by 1; a scrap error under `SkipAndLog` is logged and still increments
`out_count` by 1; a scrap error under `Fail` sets the shared `failed` flag,
makes the worker thread return the error, and does not increment
`out_count`. -/
theorem worker_scrap_policy (p : OnError) (e : String) (rest : List WorkerMsg) :
    workerHandlePage p (.ok ())
      = { outIncrement := 1, setsFailed := false, threadErr := none } ∧
    workerHandlePage .SkipAndLog (.error e)
      = { outIncrement := 1, setsFailed := false, threadErr := none } ∧
    workerHandlePage .Fail (.error e)
      = { outIncrement := 0, setsFailed := true, threadErr := some e } ∧
    workerLoop .Fail false (.page (.error e) :: rest) = (0, true, .error e) :=
  ⟨rfl, rfl, rfl, rfl⟩

theorem downloaderTask_skipAndLog (dls : List (Except String Page)) :
    downloaderTask .SkipAndLog dls =
      { sent := dlPages dls, decrements := dlErrCount dls, result := .ok () } := by
  induction dls with
  | nil => rfl
  | cons hd tl ih =>
    cases hd with
    | ok p => simp [downloaderTask, dlPages, dlErrCount, ih]
    | error e => simp [downloaderTask, dlPages, dlErrCount, ih]

theorem downloaderTask_fail_first_error (dls : List (Except String Page)) (e : String)
    (h : dlFirstErr dls = some e) :
    (downloaderTask .Fail dls).result = .error e := by
  induction dls with
  | nil => cases h
  | cons hd tl ih =>
    cases hd with
    | ok p =>
      simp only [dlFirstErr] at h
      simpa [downloaderTask] using ih h
    | error e2 =>
      simp only [dlFirstErr, Option.some.injEq] at h
      subst h
      rfl

/-- C5: in the downloader task, under `SkipAndLog` every failed download is
dropped (only successfully downloaded pages are sent), `in_count` is
decremented exactly once per failed download, and the task returns ok;
under `Fail` the first download error makes the task return that error,
which aborts the pipeline through the supervisor join. -/
theorem downloader_error_policy (dls : List (Except String Page)) :
    downloaderTask .SkipAndLog dls =
      { sent := dlPages dls, decrements := dlErrCount dls, result := .ok () } ∧
    (∀ e, dlFirstErr dls = some e → (downloaderTask .Fail dls).result = .error e) :=
  ⟨downloaderTask_skipAndLog dls, fun e h => downloaderTask_fail_first_error dls e h⟩

theorem downloader_error_policy_holds :
    (downloaderTask .Fail
        [.ok { page := "body", location := .url "https://site.example/a" },
         .error "500 Internal Server Error"]).result
      = .error "500 Internal Server Error" :=
  (downloader_error_policy
      [.ok { page := "body", location := .url "https://site.example/a" },
       .error "500 Internal Server Error"]).2 "500 Internal Server Error" rfl

/-- A failing observation of the done loop: a counter tick on which the stop
condition `out_count == in_count && crawler_done` is false. -/
def DoneObs.failingTick (ob : DoneObs) : Prop :=
  ∃ o i d, ob = DoneObs.tick o i d ∧ (o == i && d) = false

theorem doneTask_interrupted (n : Nat) (trace : List DoneObs) (m : String)
    (h : doneTask n trace = some (.interrupted m)) : m = "Interrupted" := by
  induction trace with
  | nil => cases h
  | cons hd tl ih =>
    cases hd with
    | interrupt =>
      simp only [doneTask, Option.some.injEq, DoneOutcome.interrupted.injEq] at h
      exact h.symm
    | tick o i d =>
      simp only [doneTask] at h
      by_cases hc : (o == i && d) = true
      · rw [if_pos hc] at h
        cases h
      · rw [if_neg hc] at h
        exact ih h

theorem doneTask_stopped (n : Nat) (trace : List DoneObs) (k : Nat)
    (h : doneTask n trace = some (.stopped k)) :
    k = n ∧ ∃ pre o i rest, trace = pre ++ DoneObs.tick o i true :: rest ∧ o = i ∧
      ∀ ob ∈ pre, ob.failingTick := by
  induction trace with
  | nil => cases h
  | cons hd tl ih =>
    cases hd with
    | interrupt =>
      simp only [doneTask] at h
      cases h
    | tick o i d =>
      simp only [doneTask] at h
      by_cases hc : (o == i && d) = true
      · rw [if_pos hc] at h
        have hk : k = n := by
          simpa [eq_comm] using h
        rw [Bool.and_eq_true] at hc
        have ho : o = i := by simpa using hc.1
        have hd2 : d = true := hc.2
        subst hd2
        exact ⟨hk, [], o, i, tl, rfl, ho, by simp⟩
      · rw [if_neg hc] at h
        obtain ⟨hk, pre, o2, i2, rest, htl, ho2, hpre⟩ := ih h
        refine ⟨hk, DoneObs.tick o i d :: pre, o2, i2, rest, by simp [htl], ho2, ?_⟩
        intro ob hob
        rcases List.mem_cons.mp hob with hh | hh
        · exact ⟨o, i, d, hh, Bool.of_not_eq_true hc⟩
        · exact hpre ob hh

theorem doneTask_fires_at_first_quiescence (n : Nat) (pre : List DoneObs) (o : Nat)
    (rest : List DoneObs) (hpre : ∀ ob ∈ pre, ob.failingTick) :
    doneTask n (pre ++ DoneObs.tick o o true :: rest) = some (.stopped n) := by
  induction pre with
  | nil => simp [doneTask]
  | cons hd tl ih =>
    obtain ⟨o2, i2, d2, hob, hcond⟩ := hpre hd (List.mem_cons_self hd tl)
    subst hob
    simp only [List.cons_append, doneTask, hcond]
    rw [if_neg (by simp [hcond])]
    exact ih fun ob hob => hpre ob (List.mem_cons_of_mem _ hob)

theorem doneTask_none_of_all_failing (n : Nat) :
    ∀ trace : List DoneObs, (∀ ob ∈ trace, ob.failingTick) → doneTask n trace = none
  | [] => fun _ => rfl
  | hd :: tl => fun hall => by
      obtain ⟨o, i, d, hob, hcond⟩ := hall hd (List.mem_cons_self hd tl)
      subst hob
      simp only [doneTask]
      rw [if_neg (by simp [hcond])]
      exact doneTask_none_of_all_failing n tl fun ob hob => hall ob (List.mem_cons_of_mem _ hob)

/-- C3: characterization of the quiescence watcher (the `done` task) over a
trace of loop observations: if the interrupt fires first it returns the
error message `Interrupted`; it returns the stop outcome exactly at the
first observation on which `out_count == in_count` and the walker-done flag
is true, with every earlier observation a failing counter tick, and then
the number of stop messages sent is `num_workers`; it never stops on a
trace whose observations all fail the condition. -/
theorem done_task_quiescence (n : Nat) (trace : List DoneObs) :
    (∀ m, doneTask n trace = some (.interrupted m) → m = "Interrupted") ∧
    (∀ k, doneTask n trace = some (.stopped k) →
      k = n ∧ ∃ pre o i rest, trace = pre ++ DoneObs.tick o i true :: rest ∧ o = i ∧
        ∀ ob ∈ pre, ob.failingTick) ∧
    (∀ pre o rest, trace = pre ++ DoneObs.tick o o true :: rest →
      (∀ ob ∈ pre, ob.failingTick) → doneTask n trace = some (.stopped n)) ∧
    ((∀ ob ∈ trace, ob.failingTick) → doneTask n trace = none) :=
  ⟨fun m h => doneTask_interrupted n trace m h,
   fun k h => doneTask_stopped n trace k h,
   fun pre o rest heq hpre => heq ▸ doneTask_fires_at_first_quiescence n pre o rest hpre,
   fun hall => doneTask_none_of_all_failing n trace hall⟩

theorem done_task_quiescence_holds :
    doneTask 3 [DoneObs.tick 0 1 false, DoneObs.tick 2 2 true] = some (.stopped 3) ∧
    (3 = 3 ∧ ∃ pre o i rest,
      ([DoneObs.tick 0 1 false, DoneObs.tick 2 2 true] : List DoneObs)
        = pre ++ DoneObs.tick o i true :: rest ∧ o = i ∧ ∀ ob ∈ pre, ob.failingTick) := by
  refine ⟨?_, (done_task_quiescence 3 [DoneObs.tick 0 1 false, DoneObs.tick 2 2 true]).2.1 3 rfl⟩
  exact (done_task_quiescence 3 [DoneObs.tick 0 1 false, DoneObs.tick 2 2 true]).2.2.1
    [DoneObs.tick 0 1 false] 2 [] rfl (by intro ob hob; simp at hob; exact ⟨0, 1, false, hob, rfl⟩)

/-- C4 counterexample: on a concrete run with a `RobotsTxt` seed and the
robot override set, `crawl_site` does fail at startup, but the error
message produced by the code is the crawler.rs `bail!` text, which is not
the message quoted by the claim. -/
theorem robots_seed_message_differs :
    (crawlSite exConfRobots (.RobotsTxt "https://site.example/robots.txt") exEnvOk).2
      = .error robotsSeedErrMsg ∧
    robotsSeedErrMsg ≠
      "Invalid seed config, cannot use RobotsTxt seed when the robot URL is also configured" ∧
    charsHaveSegment robotsSeedErrMsg.data
      "Invalid seed config, cannot use RobotsTxt seed when the robot URL is also configured".data
      = false :=
  ⟨rfl, by decide, by decide⟩

/-- C4 (amended): for every run whose scraper constructed successfully and
returned a `RobotsTxt` seed while the robot override is set, `crawl_site`
fails at startup with the exact crawler.rs message
`Invalid seed config, cannot use Seed::RobotsTxt when crawler_conf.robot is
defined`, emitting no robots fetch, no worker spawn, no join and no
finalizer call. -/
theorem robots_seed_startup_bail (conf : CrawlerConfig) (seed : Seed) (env : RunEnv)
    (u v : String) (hr : conf.robot = some u) (hs : seed = .RobotsTxt v)
    (hw : env.newWalkerScraper = .ok ()) :
    crawlSite conf seed env = ([], .error robotsSeedErrMsg) := by
  subst hs
  simp [crawlSite, resolveRobotThrottle, hw, hr]

theorem robots_seed_startup_bail_holds :
    crawlSite exConfRobots (.RobotsTxt "https://site.example/robots.txt") exEnvOk
      = ([], .error robotsSeedErrMsg) :=
  robots_seed_startup_bail exConfRobots (.RobotsTxt "https://site.example/robots.txt") exEnvOk
    "https://override.example/robots.txt" "https://site.example/robots.txt" rfl rfl rfl

/-- C7 counterexample: under `on_xml_error = SkipAndLog`, a sitemap whose
root element is neither `sitemapindex` nor `urlset` is NOT converted into a
log line: the `?` on `Sitemap::try_from` at crawler.rs line 64 propagates
the error regardless of the error policy, so `gather_urls` returns an
error, not ok. -/
theorem gather_unknown_root_not_skipped :
    gatherUrlsStep .SkipAndLog (fun _ _ => true) "https://site.example/sitemap.xml"
        (.parsed (some "foo") (.ok (.nodeset []))) = .error "Unknown root node kind: foo" ∧
    ∀ a, gatherUrlsStep .SkipAndLog (fun _ _ => true) "https://site.example/sitemap.xml"
        (.parsed (some "foo") (.ok (.nodeset []))) ≠ .ok a := by
  refine ⟨rfl, fun a h => ?_⟩
  rw [show gatherUrlsStep .SkipAndLog (fun _ _ => true) "https://site.example/sitemap.xml"
      (.parsed (some "foo") (.ok (.nodeset []))) = .error "Unknown root node kind: foo" from rfl]
    at h
  cases h

/-- C7 (amended): in `gather_urls`, under `SkipAndLog` an XML parse failure
or an XPath evaluation failure is logged and the call returns ok so the
walk continues, and under `Fail` each of them aborts with an error; a root
element other than `sitemapindex`/`urlset`, however, always makes
`gather_urls` return an error, under both error policies. -/
theorem gather_xml_error_policy (accept : Sitemap → String → Bool) (url e kind : String)
    (xp : Except String XpathValue)
    (h1 : kind ≠ "sitemapindex") (h2 : kind ≠ "urlset") :
    gatherUrlsStep .SkipAndLog accept url (.parseFail e) = .ok .skipped ∧
    gatherUrlsStep .SkipAndLog accept url (.parsed (some "sitemapindex") (.error e))
      = .ok .skipped ∧
    gatherUrlsStep .SkipAndLog accept url (.parsed (some "urlset") (.error e))
      = .ok .skipped ∧
    gatherUrlsStep .Fail accept url (.parseFail e)
      = .error ("Couldn\x27t parse " ++ url ++ " got: " ++ e) ∧
    gatherUrlsStep .Fail accept url (.parsed (some "sitemapindex") (.error e))
      = .error ("Couldn\x27t evaluate //sm:loc for " ++ url ++ " got: " ++ e) ∧
    gatherUrlsStep .Fail accept url (.parsed (some "urlset") (.error e))
      = .error ("Couldn\x27t evaluate //sm:loc for " ++ url ++ " got: " ++ e) ∧
    ∀ pol, gatherUrlsStep pol accept url (.parsed (some kind) xp)
      = .error ("Unknown root node kind: " ++ kind) := by
  refine ⟨rfl, rfl, rfl, rfl, rfl, rfl, fun pol => ?_⟩
  simp [gatherUrlsStep, sitemapTryFrom, h1, h2]

theorem gather_xml_error_policy_holds :
    gatherUrlsStep .SkipAndLog (fun _ _ => true) "https://site.example/s.xml"
        (.parseFail "invalid token") = .ok .skipped ∧
    gatherUrlsStep .SkipAndLog (fun _ _ => true) "https://site.example/s.xml"
        (.parsed (some "rss") (.ok .other)) = .error "Unknown root node kind: rss" :=
  ⟨(gather_xml_error_policy (fun _ _ => true) "https://site.example/s.xml" "invalid token"
      "rss" (.ok .other) (by decide) (by decide)).1,
   (gather_xml_error_policy (fun _ _ => true) "https://site.example/s.xml" "invalid token"
      "rss" (.ok .other) (by decide) (by decide)).2.2.2.2.2.2 .SkipAndLog⟩

theorem throttleFromRobot_ok (conf : CrawlerConfig) (robot : Robot) (th : Throttle)
    (h : throttleFromRobot conf robot = .ok th) :
    th = specEffectiveThrottle conf.throttle (some robot) ∧
    (conf.throttle = none → ∀ d, robot.delay = some d → 0 < d) := by
  unfold throttleFromRobot at h
  rcases hdl : robot.delay with _ | d <;> rcases ht : conf.throttle with _ | t <;>
    rw [hdl, ht] at h
  · injection h with h2
    subst h2
    exact ⟨by simp [specEffectiveThrottle, hdl], fun _ d hd => by cases hd⟩
  · injection h with h2
    subst h2
    exact ⟨by simp [specEffectiveThrottle], fun hc => by cases hc⟩
  · dsimp only at h
    by_cases hpos : d > 0
    · rw [if_pos hpos] at h
      injection h with h2
      subst h2
      refine ⟨by simp [specEffectiveThrottle, hdl], fun _ d2 hd2 => ?_⟩
      injection hd2 with h3
      exact h3 ▸ hpos
    · rw [if_neg hpos] at h
      cases h
  · injection h with h2
    subst h2
    exact ⟨by simp [specEffectiveThrottle], fun hc => by cases hc⟩

theorem fetchAndThrottle_ok (conf : CrawlerConfig) (fetch : String → Except String Robot)
    (url : String) (rb : Option Robot) (th : Throttle)
    (h : fetchAndThrottle conf fetch url = .ok (rb, th)) :
    th = specEffectiveThrottle conf.throttle rb ∧
    (conf.throttle = none → ∀ r d, rb = some r → r.delay = some d → 0 < d) := by
  unfold fetchAndThrottle at h
  split at h
  · exact absurd h (by simp)
  · rename_i robot heqf
    split at h
    · exact absurd h (by simp)
    · rename_i th2 htr
      injection h with h2
      injection h2 with hrb hth
      subst hth
      subst hrb
      obtain ⟨hspec, hpos⟩ := throttleFromRobot_ok conf robot th2 htr
      refine ⟨hspec, fun hc r d hr hd => ?_⟩
      injection hr with hr2
      exact hpos hc d (hr2 ▸ hd)

/-- C8: whenever the startup resolution of `crawl_site` succeeds, the
effective throttle is the configured throttle when set, else the fetched
robots delay (necessarily positive) when the robots document supplies one,
else the default `Concurrent(100)`; and a fetched robots delay that is not
positive, with no configured throttle, is rejected with the error
`Robot delay must be > 0.0`. -/
theorem throttle_resolution :
    (∀ (conf : CrawlerConfig) (seed : Seed) (fetch : String → Except String Robot)
        (rb : Option Robot) (th : Throttle),
      (resolveRobotThrottle conf seed fetch).2 = .ok (rb, th) →
      th = specEffectiveThrottle conf.throttle rb ∧
      (conf.throttle = none → ∀ r d, rb = some r → r.delay = some d → 0 < d)) ∧
    (∀ (conf : CrawlerConfig) (fetch : String → Except String Robot) (url : String)
        (r : Robot) (d : Rat),
      conf.throttle = none → fetch url = .ok r → r.delay = some d → ¬ d > 0 →
      fetchAndThrottle conf fetch url = .error "Robot delay must be > 0.0") := by
  constructor
  · intro conf seed fetch rb th h
    obtain ⟨ua, pb, thr, nw, e1, e2, e3, rbo⟩ := conf
    rcases seed with urls | urls | u <;> rcases rbo with _ | v
    · simp only [resolveRobotThrottle] at h
      rcases thr with _ | t <;>
        simp only [Option.getD_none, Option.getD_some] at h <;>
        injection h with h2 <;> injection h2 with hrb hth <;> subst hth <;> subst hrb <;>
        exact ⟨by simp [specEffectiveThrottle], fun _ r d hr2 => by cases hr2⟩
    · simp only [resolveRobotThrottle] at h
      exact fetchAndThrottle_ok _ fetch v rb th h
    · simp only [resolveRobotThrottle] at h
      rcases thr with _ | t <;>
        simp only [Option.getD_none, Option.getD_some] at h <;>
        injection h with h2 <;> injection h2 with hrb hth <;> subst hth <;> subst hrb <;>
        exact ⟨by simp [specEffectiveThrottle], fun _ r d hr2 => by cases hr2⟩
    · simp only [resolveRobotThrottle] at h
      exact fetchAndThrottle_ok _ fetch v rb th h
    · simp only [resolveRobotThrottle] at h
      exact fetchAndThrottle_ok _ fetch u rb th h
    · simp [resolveRobotThrottle] at h
  · intro conf fetch url r d ht hf hd hneg
    have htr : throttleFromRobot conf r = .error "Robot delay must be > 0.0" := by
      unfold throttleFromRobot
      rw [hd, ht]
      exact if_neg hneg
    simp only [fetchAndThrottle, hf, htr]

theorem throttle_resolution_holds :
    (Throttle.Delay 2 = specEffectiveThrottle exConfPlain.throttle
      (some { delay := some 2, sitemaps := [] })) ∧
    fetchAndThrottle exConfPlain (fun _ => .ok { delay := some (-1), sitemaps := [] })
        "https://site.example/robots.txt"
      = .error "Robot delay must be > 0.0" :=
  ⟨(throttle_resolution.1 exConfPlain (.RobotsTxt "https://site.example/robots.txt")
      (fun _ => .ok { delay := some 2, sitemaps := [] })
      (some { delay := some 2, sitemaps := [] }) (.Delay 2) (by norm_num [resolveRobotThrottle,
        exConfPlain, fetchAndThrottle, throttleFromRobot])).1,
   throttle_resolution.2 exConfPlain (fun _ => .ok { delay := some (-1), sitemaps := [] })
     "https://site.example/robots.txt" { delay := some (-1), sitemaps := [] } (-1)
     rfl rfl rfl (by norm_num)⟩

theorem resolveRobotThrottle_events (conf : CrawlerConfig) (seed : Seed)
    (fetch : String → Except String Robot) :
    ∀ e ∈ (resolveRobotThrottle conf seed fetch).1, ∃ u, e = Event.robotFetch u := by
  obtain ⟨ua, pb, thr, nw, e1, e2, e3, rbo⟩ := conf
  rcases seed with urls | urls | u <;> rcases rbo with _ | v <;>
    simp [resolveRobotThrottle]

theorem spawnLoop_events (spawn : Nat → Except String Unit) :
    ∀ (count id : Nat), ∀ e ∈ (spawnLoop spawn id count).1, ∃ j, e = Event.workerSpawn j := by
  intro count
  induction count with
  | zero => intro id e he; simp [spawnLoop] at he
  | succ c ih =>
    intro id e he
    unfold spawnLoop at he
    rcases hs : spawn id with er | x <;> rw [hs] at he <;> dsimp only at he
    · simp at he
    · rcases List.mem_cons.mp he with hh | hh
      · exact ⟨id, hh⟩
      · exact ih (id + 1) e hh

/-- C9 counterexample: a run of `crawl_site` that fails at startup (the
`RobotsTxt` seed with the robot override set) returns before the `try_join!`
is ever awaited and performs zero finalizer calls, so the finalizer is not
invoked exactly once on every run regardless of outcome. -/
theorem finalizer_skipped_on_startup_failure :
    (crawlSite exConfRobots (.RobotsTxt "https://site.example/robots.txt") exEnvOk).1.count
        Event.finalizerCall = 0 ∧
    (crawlSite exConfRobots (.RobotsTxt "https://site.example/robots.txt") exEnvOk).2
      = .error robotsSeedErrMsg :=
  ⟨rfl, rfl⟩

/-- C9 (amended): on every run of `crawl_site` that reaches the task phase
(the walker scraper constructs, the startup resolution succeeds, all
workers spawn and the dedicated finalizer scraper constructs),
`Scrapable::finalizer` is invoked exactly once, on the dedicated supervisor
instance, immediately after the joined tasks finish and before `crawl_site`
returns, regardless of whether the joined tasks succeeded or failed; and
the run result is the join result. -/
theorem finalizer_once_after_join (conf : CrawlerConfig) (seed : Seed) (env : RunEnv)
    (hw : env.newWalkerScraper = .ok ())
    (hrt : ∃ rt, (resolveRobotThrottle conf seed env.fetch).2 = .ok rt)
    (hsp : (spawnLoop env.spawnWorker 0 conf.num_workers).2 = .ok ())
    (hf : env.newFinalScraper = .ok ()) :
    (∃ pre, (crawlSite conf seed env).1 = pre ++ [Event.joinTasks, Event.finalizerCall] ∧
      Event.finalizerCall ∉ pre) ∧
    (crawlSite conf seed env).1.count Event.finalizerCall = 1 ∧
    (crawlSite conf seed env).2 = env.joinResult := by
  obtain ⟨rt, hrt⟩ := hrt
  have hres : crawlSite conf seed env =
      ((resolveRobotThrottle conf seed env.fetch).1 ++
        (spawnLoop env.spawnWorker 0 conf.num_workers).1 ++
        [Event.joinTasks, Event.finalizerCall],
       match env.joinResult with
       | .error e => .error e
       | .ok _ => .ok ()) := by
    unfold crawlSite
    rw [hw]
    dsimp only
    rw [hrt, hsp, hf]
  have hpre : Event.finalizerCall ∉
      (resolveRobotThrottle conf seed env.fetch).1 ++
        (spawnLoop env.spawnWorker 0 conf.num_workers).1 := by
    intro hmem
    rcases List.mem_append.mp hmem with hh | hh
    · obtain ⟨u, hu⟩ := resolveRobotThrottle_events conf seed env.fetch _ hh
      cases hu
    · obtain ⟨j, hj⟩ := spawnLoop_events env.spawnWorker conf.num_workers 0 _ hh
      cases hj
  refine ⟨⟨_, by rw [hres, List.append_assoc], hpre⟩, ?_, ?_⟩
  · rw [hres]
    simp only [List.count_append]
    rw [List.count_eq_zero.mpr fun hmem => hpre (List.mem_append.mpr (.inl hmem)),
        List.count_eq_zero.mpr fun hmem => hpre (List.mem_append.mpr (.inr hmem))]
    rfl
  · rw [hres]
    rcases env.joinResult <;> rfl

theorem finalizer_once_after_join_holds :
    (∃ pre, (crawlSite exConfPlain (.Pages ["https://site.example/p1"]) exEnvOk).1
        = pre ++ [Event.joinTasks, Event.finalizerCall] ∧ Event.finalizerCall ∉ pre) ∧
    (crawlSite exConfPlain (.Pages ["https://site.example/p1"]) exEnvOk).1.count
        Event.finalizerCall = 1 ∧
    (crawlSite exConfPlain (.Pages ["https://site.example/p1"]) exEnvOk).2
      = exEnvOk.joinResult :=
  finalizer_once_after_join exConfPlain (.Pages ["https://site.example/p1"]) exEnvOk
    rfl ⟨(none, .Concurrent 100), rfl⟩ rfl rfl

end Sws
